import Mathlib

/-!
Shallow embedding of goa's HTTP server-type code generation
(`http/codegen/server_types.go`): the attribute-to-field transformation
planner `fieldCode`, the per-service type-declaration loops of `serverType`,
and the constructor template `serverTypeInitT`.

The `expr` and `codegen` packages the file imports are not part of the
sources; those few helpers are modelled from the spec and marked as such.
-/

namespace Goa

mutual

/-- Modelled from the spec: the TypeShape data model of the normalized
attribute and field types (the spec's `Primitive`, `AliasOfPrimitive`,
`Array`, `Map`, `Object` variants, with nominal identity for aliases). -/
inductive TypeShape where
  | Primitive (name : String)
  | AliasOfPrimitive (aliasName : String) (base : String)
  | Arr (elem : TypeShape)
  | MapT (key : TypeShape) (value : TypeShape)
  | Object (fields : ObjectFields)
deriving DecidableEq, Repr

/-- Modelled from the spec: the ordered field list of an `Object` shape. -/
inductive ObjectFields where
  | nil
  | cons (name : String) (t : TypeShape) (rest : ObjectFields)
deriving DecidableEq, Repr

end

/-- Modelled from the spec: `expr.IsPrimitive` — true for shapes whose kind
reduces to a primitive: the `Primitive` shape itself and an alias of a
primitive (an alias "reduces to the same primitive" per the spec, which is
what keeps the alias-cast branch of the planner live). -/
def isPrimitive : TypeShape → Bool
  | .Primitive _ => true
  | .AliasOfPrimitive _ _ => true
  | _ => false

/-- Modelled from the spec: the `expr.UserType` interface assertion on a
shape; in this binding model the named user types are the aliases. -/
def isUserType : TypeShape → Bool
  | .AliasOfPrimitive _ _ => true
  | _ => false

/-- True when a shape contains a nested `Object`; per the spec invariant
(section 3) such a shape is exactly what forces the generic transform to
emit a reusable named helper. -/
def containsObject : TypeShape → Bool
  | .Object _ => true
  | .Arr e => containsObject e
  | .MapT k v => containsObject k || containsObject v
  | _ => false

/-- Modelled from the spec: `scope.GoFullTypeRef` renders the
package-qualified reference to the (named) target type. -/
def goFullTypeRef (t : TypeShape) (pkg : String) : String :=
  match t with
  | .AliasOfPrimitive a _ => if pkg = "" then a else pkg ++ "." ++ a
  | .Primitive p => p
  | _ => ""

/-- Modelled from the spec: `codegen.NameScope` — a collision-free
identifier allocator; `unique` reserves a name, appending a deterministic
disambiguating suffix on collision. -/
structure NameScope where
  names : List String
deriving Repr

/-- Modelled from the spec: `codegen.NewNameScope`. -/
def nameScopeNew : NameScope := ⟨[]⟩

/-- Modelled from the spec: try `n`, then `n2`, `n22`, ... until free;
the fuel argument bounds the search (enough candidates are always tried
because the candidates are pairwise distinct). -/
def freshName (taken : List String) (n : String) : Nat → String
  | 0 => n
  | fuel + 1 => if n ∈ taken then freshName taken (n ++ "2") fuel else n

/-- Modelled from the spec: `scope.Unique` — returns the reserved name and
the scope extended with it. -/
def NameScope.unique (s : NameScope) (n : String) : String × NameScope :=
  let m := freshName s.names n (s.names.length + 1)
  (m, ⟨m :: s.names⟩)

/-- Modelled from the spec: `codegen.GoTransformToVar` generates the
recursive structural conversion from the source shape to the target shape
(assigned to `tgtExpr`) together with the reusable transform helper
functions the conversion needs; per the spec a reusable named helper is
needed exactly when an `Object` shape is involved. -/
def goTransformToVar (src tgt : TypeShape) (srcVar tgtExpr : String) :
    Except String (String × List String) :=
  let helpers := if containsObject src || containsObject tgt then ["transformHelper"] else []
  .ok (tgtExpr ++ " = transform(" ++ srcVar ++ ")", helpers)

/-- One element of `InitData.ServerArgs`: the `InitArgData` fields read by
`fieldCode` and the constructor template (Go field names lowercased). -/
structure InitArgData where
  name : String
  typeRef : String
  fieldName : String
  type : TypeShape
  fieldType : TypeShape
  pointer : Bool
  fieldPointer : Bool
deriving DecidableEq, Repr

/-- The per-binding emission decided by the loop body of `fieldCode`
(server_types.go lines 223-272), one constructor per `fmt.Sprintf` shape:
an entry of the composite literal (`initAssign`/`initCast`), a
post-construction assignment (`postAssign`/`postCast`), the
temporary-variable cast used for pointer fields (`castViaTemp`), or the
structural conversion code (`structural`). `deref` holds the source
address-of marker (`&` or empty), exactly as the Go code builds it. -/
inductive FieldOp where
  | initAssign (field deref source : String)
  | initCast (field castExpr : String)
  | postAssign (field deref source : String)
  | postCast (field castExpr : String)
  | castViaTemp (tempName castExpr field : String)
  | structural (conversion : String)
deriving DecidableEq, Repr

/-- Rendering of a `FieldOp` into its contribution to the composite-literal
initializer string `init` of `fieldCode`. -/
def opInit : FieldOp → String
  | .initAssign f d s => f ++ ": " ++ d ++ s ++ ",\n"
  | .initCast f c => f ++ ": " ++ c ++ ",\n"
  | _ => ""

/-- Rendering of a `FieldOp` into its contribution to the post-construction
statement string `post` of `fieldCode`. -/
def opPost (targetVar : String) : FieldOp → String
  | .postAssign f d s => targetVar ++ "." ++ f ++ " = " ++ d ++ s ++ "\n"
  | .postCast f c => targetVar ++ "." ++ f ++ " = " ++ c ++ "\n"
  | .castViaTemp t c f => t ++ " := " ++ c ++ "\n" ++ targetVar ++ "." ++ f ++ " = &" ++ t ++ "\n"
  | .structural c => c ++ "\n"
  | _ => ""

/-- The loop body of `fieldCode` (server_types.go lines 222-272) for one
argument: skip when `FieldName` is empty; identical shapes
(`expr.Equal(arg.Type, arg.FieldType)`) get a plain assignment with an
address-of marker when the field is a pointer, the source is not and the
field type is primitive; an aliased primitive field type gets a nominal
cast (dereferencing a pointer source), through a temporary when the field
is a pointer; everything else goes to `codegen.GoTransformToVar`, and any
needed transform helper is the fatal invariant violation
(`panic("expected 0 transform helpers but got at least 1")`, modelled as
`Except.error`). -/
def argOp (code targetVar targetPkg : String) (arg : InitArgData) :
    Except String (Option FieldOp) :=
  if arg.fieldName = "" then
    .ok none
  else if arg.type = arg.fieldType then
    let deref := if !arg.pointer && arg.fieldPointer && isPrimitive arg.fieldType then "&" else ""
    if code ≠ "" then
      .ok (some (.postAssign arg.fieldName deref arg.name))
    else
      .ok (some (.initAssign arg.fieldName deref arg.name))
  else if isUserType arg.fieldType && isPrimitive arg.fieldType then
    let t := goFullTypeRef arg.fieldType targetPkg
    let castExpr := if arg.pointer then t ++ "(*" ++ arg.name ++ ")" else t ++ "(" ++ arg.name ++ ")"
    if arg.fieldPointer then
      .ok (some (.castViaTemp ("tmp" ++ arg.name) castExpr arg.fieldName))
    else if code ≠ "" then
      .ok (some (.postCast arg.fieldName castExpr))
    else
      .ok (some (.initCast arg.fieldName castExpr))
  else
    match goTransformToVar arg.type arg.fieldType arg.name (targetVar ++ "." ++ arg.fieldName) with
    | .error e => .error e
    | .ok (c, h) =>
      if h.length > 0 then .error "expected 0 transform helpers but got at least 1"
      else .ok (some (.structural c))

/-- `strings.Trim(s, "\n")`: drop newline characters from both ends. -/
def trimNewlines (s : String) : String :=
  String.mk (((s.data.dropWhile (fun c => c = '\n')).reverse.dropWhile (fun c => c = '\n')).reverse)

/-- Folding step of `fieldCode` over the argument list, threading the
`(init, post)` string pair and short-circuiting on the panics. -/
def fcStep (code targetVar targetPkg : String) (acc : Except String (String × String))
    (arg : InitArgData) : Except String (String × String) :=
  match acc with
  | .error e => .error e
  | .ok (i, p) =>
    match argOp code targetVar targetPkg arg with
    | .error e => .error e
    | .ok none => .ok (i, p)
    | .ok (some op) => .ok (i ++ opInit op, p ++ opPost targetVar op)

/-- `fieldCode` (server_types.go lines 213-281): initializes the target
type fields with the given args. With no bootstrap `code` the target is
allocated as a composite literal seeded with the init entries; post
statements follow; panics become `Except.error`. The name scope is created
and the target variable reserved as in the source (the temporary cast
names notably bypass it). -/
def fieldCode (args : List InitArgData) (code targetVar targetName targetPkg : String) :
    Except String String :=
  let scope := nameScopeNew
  let _scopeAfter := (scope.unique targetVar).2
  let init0 := if code = "" then targetVar ++ " := &" ++ targetName ++ "\x7b\n" else ""
  match args.foldl (fcStep code targetVar targetPkg) (.ok (init0, "")) with
  | .error e => .error e
  | .ok (i, p) =>
    let i2 := if i ≠ "" then i ++ "\x7d\n" else i
    if code ≠ "" then .ok (trimNewlines p) else .ok (trimNewlines (i2 ++ p))

/-- Concatenation of a list of strings (in order). -/
def catList : List String → String
  | [] => ""
  | s :: r => s ++ catList r

/-- The `InitData` fields read by `serverType` and its templates. -/
structure InitData where
  Description : String
  Name : String
  ReturnTypeRef : String
  ServerCode : String
  ReturnTypeAttribute : String
  ReturnTypeName : String
  ReturnTypePkg : String
  ReturnIsStruct : Bool
  ServerArgs : List InitArgData
deriving DecidableEq, Repr

/-- The `TypeData` fields read by `serverType`. -/
structure TypeData where
  Name : String
  Def : String
  ValidateDef : String
  Init : Option InitData
deriving DecidableEq, Repr

/-- A `codegen.SectionTemplate` appended by `serverType`, one constructor
per template name used there. -/
inductive Section where
  | header
  | requestBodyTypeDecl (d : TypeData)
  | responseServerBody (d : TypeData)
  | errorBodyTypeDecl (d : TypeData)
  | serverBodyAttributes (d : TypeData)
  | serverBodyInit (d : InitData)
  | serverPayloadInit (d : InitData)
  | serverValidate (d : TypeData)
deriving DecidableEq, Repr

/-- The per-endpoint data read by `serverType`: the request body
(`adata.Payload.Request.ServerBody`), the streaming payload body
(`adata.ServerStream.Payload`, `none` when there is no server stream), the
response bodies (`adata.Result.Responses[].ServerBody`), the error bodies
(`adata.Errors[].Errors[].Response.ServerBody`, flattened over the two
error levels), and the constructor data (`PayloadInit` and the streaming
payload `Init`). -/
structure EndpointData where
  requestServerBody : Option TypeData
  streamPayload : Option TypeData
  responseBodies : List (List TypeData)
  errorBodies : List (List TypeData)
  payloadInit : Option InitData
  streamPayloadInit : Option InitData
deriving Repr

/-- One request-body candidate of the request loop (server_types.go lines
73-98): emit the declaration when the definition is non-empty, collect the
type for validation when it has validations; no dedup registry consulted. -/
def reqBodyStep (acc : List Section × List TypeData) (d : Option TypeData) :
    List Section × List TypeData :=
  match d with
  | none => acc
  | some d =>
    (acc.1 ++ (if d.Def ≠ "" then [Section.requestBodyTypeDecl d] else []),
     acc.2 ++ (if d.ValidateDef ≠ "" then [d] else []))

/-- One endpoint of the request-body loop (server_types.go lines 71-99). -/
def reqStep (acc : List Section × List TypeData) (e : EndpointData) :
    List Section × List TypeData :=
  reqBodyStep (reqBodyStep acc e.requestServerBody) e.streamPayload

/-- The request-body type loop of `serverType` (lines 70-99), producing the
request declaration sections and the validated types it collects. -/
def requestBodyBlock (eps : List EndpointData) : List Section × List TypeData :=
  eps.foldl reqStep ([], [])

/-- Lookup in the `ServerTypeNames` map (name to generated flag). -/
def mlookup : List (String × Bool) → String → Option Bool
  | [], _ => none
  | (k, v) :: rest, n => if k = n then some v else mlookup rest n

/-- `data.ServerTypeNames[n] = true`: mark a registered name generated. -/
def mset (m : List (String × Bool)) (n : String) : List (String × Bool) :=
  m.map (fun p => if p.1 = n then (p.1, true) else p)

/-- State threaded through the response-body loop of `serverType`:
the emitted sections, the `ServerTypeNames` registry, the collected
`initData` and the collected validated types. -/
structure RespAcc where
  sections : List Section
  names : List (String × Bool)
  inits : List InitData
  validated : List TypeData
deriving Repr

/-- One response body type of the response loop (server_types.go lines
105-122): only when `ServerTypeNames` maps the name to `false` (registered
but not yet generated) are the declaration emitted (when the definition is
non-empty), the constructor and validation data collected, and the name
marked generated. -/
def respStep (st : RespAcc) (t : TypeData) : RespAcc :=
  match mlookup st.names t.Name with
  | some false =>
    { sections := st.sections ++ (if t.Def ≠ "" then [Section.responseServerBody t] else [])
      names := mset st.names t.Name
      inits := st.inits ++ t.Init.toList
      validated := st.validated ++ (if t.ValidateDef ≠ "" then [t] else []) }
  | _ => st

/-- The response-body type loop of `serverType` (lines 101-124) over the
response body types in endpoint order. -/
def respLoop (tds : List TypeData) (st : RespAcc) : RespAcc :=
  tds.foldl respStep st

/-- One error body type of the error loop (server_types.go lines 131-145):
emit the declaration when the definition is non-empty and collect
constructor and validation data; no registry consulted. -/
def errStep (acc : List Section × List InitData × List TypeData) (t : TypeData) :
    List Section × List InitData × List TypeData :=
  (acc.1 ++ (if t.Def ≠ "" then [Section.errorBodyTypeDecl t] else []),
   acc.2.1 ++ t.Init.toList,
   acc.2.2 ++ (if t.ValidateDef ≠ "" then [t] else []))

/-- The error-body type loop of `serverType` (lines 126-148) over the error
body types in endpoint order. -/
def errorBodyBlock (tds : List TypeData) : List Section × List InitData × List TypeData :=
  tds.foldl errStep ([], [], [])

/-- One body attribute type (server_types.go lines 151-163): emit the
declaration when the definition is non-empty and collect validation data;
no registry consulted. -/
def attrStep (acc : List Section × List TypeData) (t : TypeData) :
    List Section × List TypeData :=
  (acc.1 ++ (if t.Def ≠ "" then [Section.serverBodyAttributes t] else []),
   acc.2 ++ (if t.ValidateDef ≠ "" then [t] else []))

/-- The body attribute type loop of `serverType` (lines 150-163). -/
def attrBlock (tds : List TypeData) : List Section × List TypeData :=
  tds.foldl attrStep ([], [])

/-- The payload constructor loop of `serverType` (lines 174-198): one
`server-payload-init` section per endpoint payload init and per streaming
payload init. -/
def payloadInitBlock (eps : List EndpointData) : List Section :=
  eps.foldl
    (fun acc e =>
      acc ++ (e.payloadInit.toList.map Section.serverPayloadInit)
          ++ (e.streamPayloadInit.toList.map Section.serverPayloadInit))
    []

/-- `serverType` (server_types.go lines 47-210): assembles the section list
for one service file, in source order (header, request bodies, response
bodies, error bodies, body attributes, body constructors, payload
constructors, validations), and returns the updated `ServerTypeNames`
registry. The `seen` argument is passed by `ServerTypeFiles` but, as in
the source, never read. -/
def serverType (seen : List String) (eps : List EndpointData)
    (serverTypeNames : List (String × Bool)) (serverBodyAttributeTypes : List TypeData) :
    List Section × List (String × Bool) :=
  let _ := seen
  let req := requestBodyBlock eps
  let respInput := (eps.map (fun e => (e.responseBodies).flatten)).flatten
  let resp := respLoop respInput ⟨[], serverTypeNames, [], []⟩
  let errInput := (eps.map (fun e => (e.errorBodies).flatten)).flatten
  let err := errorBodyBlock errInput
  let attr := attrBlock serverBodyAttributeTypes
  let initData := resp.inits ++ err.2.1
  let validatedTypes := req.2 ++ resp.validated ++ err.2.2 ++ attr.2
  (Section.header :: req.1 ++ resp.sections ++ err.1 ++ attr.1
     ++ initData.map Section.serverBodyInit
     ++ payloadInitBlock eps
     ++ validatedTypes.map Section.serverValidate,
   resp.names)

/-- `{{ comment .Description }}`: render a comment line. -/
def commentLine (s : String) : String := "// " ++ s

/-- Rendering of the `serverTypeInitT` template (server_types.go lines
289-314) for one `InitData` (indentation abstracted away): the comment and
signature; when `ServerCode` is present, the bootstrap code followed — only
when the return shape wraps the value (`ReturnTypeAttribute` non-empty) —
by the wrapper allocation embedding `v`; when the return is a struct, the
`fieldCode` output targeted at `res` when wrapped and at `v` otherwise;
finally `return res` or `return v`. -/
def serverTypeInit (d : InitData) : Except String String :=
  let argsSig := catList (d.ServerArgs.map (fun a => a.name ++ " " ++ a.typeRef ++ ", "))
  let headerLine := "func " ++ d.Name ++ "(" ++ argsSig ++ ") " ++ d.ReturnTypeRef ++ " \x7b\n"
  let bootstrap :=
    if d.ServerCode ≠ "" then
      d.ServerCode ++ "\n" ++
        (if d.ReturnTypeAttribute ≠ "" then
          "res := &" ++ d.ReturnTypeName ++ "\x7b\n" ++ d.ReturnTypeAttribute ++ ": v,\n\x7d\n"
         else "")
    else ""
  let targetVar := if d.ReturnTypeAttribute ≠ "" then "res" else "v"
  match (if d.ReturnIsStruct then
           fieldCode d.ServerArgs d.ServerCode targetVar d.ReturnTypeName d.ReturnTypePkg
         else .ok "") with
  | .error e => .error e
  | .ok c =>
    let fieldsPart := if c ≠ "" then c ++ "\n" else ""
    .ok (commentLine d.Description ++ "\n" ++ headerLine ++ bootstrap ++ fieldsPart
          ++ "return " ++ targetVar ++ "\n\x7d\n")

/-- Rendering of the `serverBodyInitT` template (lines 317-322). -/
def serverBodyInitRender (d : InitData) : String :=
  let argsSig := catList (d.ServerArgs.map (fun a => a.name ++ " " ++ a.typeRef ++ ", "))
  commentLine d.Description ++ "\n" ++ "func " ++ d.Name ++ "(" ++ argsSig ++ ") "
    ++ d.ReturnTypeRef ++ " \x7b\n" ++ d.ServerCode ++ "\nreturn body\n\x7d\n"

/-- The initializer-entry contribution of one argument (empty for skipped
arguments and for post-statement operations). -/
def argInitPart (code targetVar targetPkg : String) (a : InitArgData) : String :=
  match argOp code targetVar targetPkg a with
  | .ok (some op) => opInit op
  | _ => ""

/-- The post-statement contribution of one argument. -/
def argPostPart (code targetVar targetPkg : String) (a : InitArgData) : String :=
  match argOp code targetVar targetPkg a with
  | .ok (some op) => opPost targetVar op
  | _ => ""

/-- Whether the planner handles an argument without hitting a panic. -/
def argOk (code targetVar targetPkg : String) (a : InitArgData) : Bool :=
  match argOp code targetVar targetPkg a with
  | .ok _ => true
  | .error _ => false

/-- Concatenation of the images of a list, in list order. -/
def catMap (f : α → String) : List α → String
  | [] => ""
  | a :: r => f a ++ catMap f r

/-- Number of sections satisfying a predicate. -/
def countSec (pred : Section → Bool) : List Section → Nat
  | [] => 0
  | s :: r => (if pred s then 1 else 0) + countSec pred r

/-- A response-body declaration section for the given type name. -/
def isRespDecl (n : String) : Section → Bool
  | .responseServerBody d => d.Name == n
  | _ => false

/-- A request-body declaration section for the given type name. -/
def isReqDecl (n : String) : Section → Bool
  | .requestBodyTypeDecl d => d.Name == n
  | _ => false

/-- An error-body declaration section for the given type name. -/
def isErrDecl (n : String) : Section → Bool
  | .errorBodyTypeDecl d => d.Name == n
  | _ => false

/-- A body-attribute declaration section for the given type name. -/
def isAttrDecl (n : String) : Section → Bool
  | .serverBodyAttributes d => d.Name == n
  | _ => false

/-- Request-body declarations contributed by one optional body. -/
def optReqCount (n : String) : Option TypeData → Nat
  | none => 0
  | some d => if d.Def ≠ "" ∧ d.Name = n then 1 else 0

/-- Request-body declarations contributed by one endpoint (its body and its
streaming payload body). -/
def epReqCount (n : String) (e : EndpointData) : Nat :=
  optReqCount n e.requestServerBody + optReqCount n e.streamPayload

/-- Error-body (or attribute-type) declarations contributed by one type. -/
def tdCount (n : String) (t : TypeData) : Nat :=
  if t.Def ≠ "" ∧ t.Name = n then 1 else 0

/-- Whether the first list is a prefix of the second. -/
def isPrefixChars : List Char → List Char → Bool
  | [], _ => true
  | _ :: _, [] => false
  | a :: as, b :: bs => a = b && isPrefixChars as bs

/-- Whether the first list occurs as a contiguous sublist of the second. -/
def hasInfixChars (needle : List Char) : List Char → Bool
  | [] => isPrefixChars needle []
  | b :: bs => isPrefixChars needle (b :: bs) || hasInfixChars needle bs

/-- Whether the needle occurs as a substring of the haystack. -/
def strContains (haystack needle : String) : Bool :=
  hasInfixChars needle.data haystack.data

theorem strAppend_ne_right (a b : String) (h : b ≠ "") : a ++ b ≠ "" := by
  intro hc
  have h2 := congrArg String.data hc
  simp [String.data_append] at h2
  exact h (String.ext (by simp [h2.2]))

theorem strAppend_ne_left (a b : String) (h : a ≠ "") : a ++ b ≠ "" := by
  intro hc
  have h2 := congrArg String.data hc
  simp [String.data_append] at h2
  exact h (String.ext (by simp [h2.1]))

/-- The fold of `fieldCode` over the argument list appends every
argument's initializer and post contributions in input order. -/
theorem fcFold_ok (code targetVar targetPkg : String) :
    ∀ (args : List InitArgData) (i p : String),
      (∀ a ∈ args, argOk code targetVar targetPkg a = true) →
      args.foldl (fcStep code targetVar targetPkg) (.ok (i, p)) =
        .ok (i ++ catMap (argInitPart code targetVar targetPkg) args,
             p ++ catMap (argPostPart code targetVar targetPkg) args) := by
  intro args
  induction args with
  | nil => intro i p _; simp [catMap]
  | cons a r ih =>
    intro i p h
    have ha : argOk code targetVar targetPkg a = true := h a (by simp)
    have hr : ∀ x ∈ r, argOk code targetVar targetPkg x = true := fun x hx => h x (by simp [hx])
    cases hop : argOp code targetVar targetPkg a with
    | error e => simp [argOk, hop] at ha
    | ok o =>
      cases o with
      | none =>
        rw [List.foldl_cons]
        simp only [fcStep, hop]
        rw [ih i p hr]
        simp [catMap, argInitPart, argPostPart, hop]
      | some op =>
        rw [List.foldl_cons]
        simp only [fcStep, hop]
        rw [ih (i ++ opInit op) (p ++ opPost targetVar op) hr]
        simp [catMap, argInitPart, argPostPart, hop, String.append_assoc]

/-! ## Theorems about the per-binding planner cases of `fieldCode` -/

/-- C1: for a binding whose field type is an alias of a primitive and whose
source type is the matching primitive, with the field not a pointer, the
planner emits a cast through the nominal type (an `initCast` literal entry
or a `postCast` assignment, never a plain assignment), and a pointer source
is dereferenced inside the cast expression. -/
theorem aliasCast_nonPointerField (arg : InitArgData) (code targetVar targetPkg a p : String)
    (hf : arg.fieldName ≠ "")
    (hft : arg.fieldType = TypeShape.AliasOfPrimitive a p)
    (ht : arg.type = TypeShape.Primitive p)
    (hfp : arg.fieldPointer = false) :
    (argOp code targetVar targetPkg arg =
      .ok (some (if code = "" then
        FieldOp.initCast arg.fieldName
          (if arg.pointer then
            goFullTypeRef arg.fieldType targetPkg ++ "(*" ++ arg.name ++ ")"
           else goFullTypeRef arg.fieldType targetPkg ++ "(" ++ arg.name ++ ")")
      else
        FieldOp.postCast arg.fieldName
          (if arg.pointer then
            goFullTypeRef arg.fieldType targetPkg ++ "(*" ++ arg.name ++ ")"
           else goFullTypeRef arg.fieldType targetPkg ++ "(" ++ arg.name ++ ")"))))
    ∧ (∀ f d s, argOp code targetVar targetPkg arg ≠ .ok (some (FieldOp.initAssign f d s)))
    ∧ (∀ f d s, argOp code targetVar targetPkg arg ≠ .ok (some (FieldOp.postAssign f d s))) := by
  have hne : arg.type ≠ arg.fieldType := by
    rw [ht, hft]; intro h; cases h
  refine ⟨?_, ?_, ?_⟩ <;>
    by_cases hc : code = "" <;>
      simp [argOp, hf, ht, hft, hfp, hc, isUserType, isPrimitive]

/-- Witness for C1: scenario 2 of the spec, `status : string` into the
non-pointer field `Status : StatusType`. -/
theorem aliasCast_nonPointerField_witness :
    argOp "" "v" ""
        (⟨"status", "string", "Status", TypeShape.Primitive "string",
          TypeShape.AliasOfPrimitive "StatusType" "string", false, false⟩ : InitArgData)
      = .ok (some (FieldOp.initCast "Status" "StatusType(status)")) := by
  have h := aliasCast_nonPointerField
    (⟨"status", "string", "Status", TypeShape.Primitive "string",
      TypeShape.AliasOfPrimitive "StatusType" "string", false, false⟩ : InitArgData)
    "" "v" "" "StatusType" "string" (by decide) rfl rfl rfl
  simpa using h.1

/-- C2 counterexample: two alias-cast bindings with pointer fields whose
sources are both named `status` receive the same emitted temporary name
`tmpstatus` (it is not reserved in the name scope), so the generated code
declares `tmpstatus` twice; the claimed distinctness fails. -/
theorem tempName_collision_cex :
    (argOp "" "v" ""
        (⟨"status", "string", "StatusA", TypeShape.Primitive "string",
          TypeShape.AliasOfPrimitive "StatusType" "string", false, true⟩ : InitArgData)
      = .ok (some (FieldOp.castViaTemp "tmpstatus" "StatusType(status)" "StatusA")))
    ∧ (argOp "" "v" ""
        (⟨"status", "string", "StatusB", TypeShape.Primitive "string",
          TypeShape.AliasOfPrimitive "StatusType" "string", false, true⟩ : InitArgData)
      = .ok (some (FieldOp.castViaTemp "tmpstatus" "StatusType(status)" "StatusB")))
    ∧ (fieldCode
        [⟨"status", "string", "StatusA", TypeShape.Primitive "string",
          TypeShape.AliasOfPrimitive "StatusType" "string", false, true⟩,
         ⟨"status", "string", "StatusB", TypeShape.Primitive "string",
          TypeShape.AliasOfPrimitive "StatusType" "string", false, true⟩] "" "v" "T" ""
      = .ok "v := &T\x7b\n\x7d\ntmpstatus := StatusType(status)\nv.StatusA = &tmpstatus\ntmpstatus := StatusType(status)\nv.StatusB = &tmpstatus") := by
  refine ⟨rfl, rfl, rfl⟩

/-- C2 (amended): in the alias-cast case with a pointer field the planner
emits `castViaTemp` whose temporary name is `tmp` concatenated with the
source name, taken verbatim and not reserved in the name scope — so two
bindings with colliding natural temp names receive the same emitted name. -/
theorem aliasCast_pointerField_tempName (arg : InitArgData) (code targetVar targetPkg a p : String)
    (hf : arg.fieldName ≠ "")
    (hft : arg.fieldType = TypeShape.AliasOfPrimitive a p)
    (ht : arg.type = TypeShape.Primitive p)
    (hfp : arg.fieldPointer = true) :
    argOp code targetVar targetPkg arg =
      .ok (some (FieldOp.castViaTemp ("tmp" ++ arg.name)
        (if arg.pointer then
          goFullTypeRef arg.fieldType targetPkg ++ "(*" ++ arg.name ++ ")"
         else goFullTypeRef arg.fieldType targetPkg ++ "(" ++ arg.name ++ ")")
        arg.fieldName)) := by
  have hne : arg.type ≠ arg.fieldType := by
    rw [ht, hft]; intro h; cases h
  simp [argOp, hf, ht, hft, hfp, isUserType, isPrimitive]

/-- Witness for the amended C2: scenario 3 of the spec (pointer field). -/
theorem aliasCast_pointerField_tempName_witness :
    argOp "" "v" ""
        (⟨"status", "string", "Status", TypeShape.Primitive "string",
          TypeShape.AliasOfPrimitive "StatusType" "string", false, true⟩ : InitArgData)
      = .ok (some (FieldOp.castViaTemp "tmpstatus" "StatusType(status)" "Status")) := by
  have h := aliasCast_pointerField_tempName
    (⟨"status", "string", "Status", TypeShape.Primitive "string",
      TypeShape.AliasOfPrimitive "StatusType" "string", false, true⟩ : InitArgData)
    "" "v" "" "StatusType" "string" (by decide) rfl rfl rfl
  simpa using h

/-- C3: for a binding whose source and field types are the same shape the
planner emits a plain assignment whose address-of marker is `&` exactly
when the field is a pointer, the source is not, and the field type is
primitive-kinded, and is empty in every other identical-shape
configuration; it never emits a cast, a temporary, or a structural copy
(in particular identical array shapes get a plain assignment with no
recursion). -/
theorem identicalShape_assign (arg : InitArgData) (code targetVar targetPkg : String)
    (hf : arg.fieldName ≠ "")
    (heq : arg.type = arg.fieldType) :
    (argOp code targetVar targetPkg arg =
      .ok (some (if code = "" then
        FieldOp.initAssign arg.fieldName
          (if !arg.pointer && arg.fieldPointer && isPrimitive arg.fieldType then "&" else "")
          arg.name
      else
        FieldOp.postAssign arg.fieldName
          (if !arg.pointer && arg.fieldPointer && isPrimitive arg.fieldType then "&" else "")
          arg.name)))
    ∧ (∀ f c, argOp code targetVar targetPkg arg ≠ .ok (some (FieldOp.initCast f c)))
    ∧ (∀ f c, argOp code targetVar targetPkg arg ≠ .ok (some (FieldOp.postCast f c)))
    ∧ (∀ t c f, argOp code targetVar targetPkg arg ≠ .ok (some (FieldOp.castViaTemp t c f)))
    ∧ (∀ c, argOp code targetVar targetPkg arg ≠ .ok (some (FieldOp.structural c))) := by
  refine ⟨?_, ?_, ?_, ?_, ?_⟩ <;>
    by_cases hc : code = "" <;>
      simp [argOp, hf, heq, hc]

/-- Witness for C3: scenario 1 of the spec, `age : int` (non-pointer) into
pointer field `Age : int` yields the address-of assignment. -/
theorem identicalShape_assign_witness :
    argOp "" "v" ""
        (⟨"age", "int", "Age", TypeShape.Primitive "int",
          TypeShape.Primitive "int", false, true⟩ : InitArgData)
      = .ok (some (FieldOp.initAssign "Age" "&" "age")) := by
  have h := identicalShape_assign
    (⟨"age", "int", "Age", TypeShape.Primitive "int",
      TypeShape.Primitive "int", false, true⟩ : InitArgData)
    "" "v" "" (by decide) rfl
  simpa using h.1

/-- C4: a binding in the structural case whose shapes involve an `Object`
(so the recursive sub-transform needs a reusable helper) makes the planner
abort with the internal-invariant error and produce no output at all. -/
theorem structural_helper_abort (arg : InitArgData) (code targetVar targetName targetPkg : String)
    (hf : arg.fieldName ≠ "")
    (hne : arg.type ≠ arg.fieldType)
    (hna : (isUserType arg.fieldType && isPrimitive arg.fieldType) = false)
    (hobj : (containsObject arg.type || containsObject arg.fieldType) = true) :
    argOp code targetVar targetPkg arg = .error "expected 0 transform helpers but got at least 1"
    ∧ fieldCode [arg] code targetVar targetName targetPkg
        = .error "expected 0 transform helpers but got at least 1" := by
  have h1 : argOp code targetVar targetPkg arg
      = .error "expected 0 transform helpers but got at least 1" := by
    simp [argOp, hf, hne, hna, goTransformToVar, hobj]
  exact ⟨h1, by simp [fieldCode, fcStep, h1]⟩

/-- Witness for C4: an object-shaped value reaching a binding aborts. -/
theorem structural_helper_abort_witness :
    fieldCode
        [(⟨"info", "X", "Info", TypeShape.Object ObjectFields.nil,
           TypeShape.Object (ObjectFields.cons "x" (TypeShape.Primitive "int") ObjectFields.nil),
           false, false⟩ : InitArgData)] "" "v" "T" ""
      = .error "expected 0 transform helpers but got at least 1" := by
  have h := structural_helper_abort
    (⟨"info", "X", "Info", TypeShape.Object ObjectFields.nil,
      TypeShape.Object (ObjectFields.cons "x" (TypeShape.Primitive "int") ObjectFields.nil),
      false, false⟩ : InitArgData)
    "" "v" "T" "" (by decide) (by decide) (by decide) (by decide)
  exact h.2

/-- C7 counterexample: an identical-shape binding with a pointer source and
a non-pointer field gets a plain assignment with an empty marker — the
emitted code is `v.Age = age`, with no dereference of the source — so the
claimed `AssignWithDeref` is never produced. -/
theorem pointerSource_noDeref_cex :
    (argOp "decoded" "v" ""
        (⟨"age", "int", "Age", TypeShape.Primitive "int",
          TypeShape.Primitive "int", true, false⟩ : InitArgData)
      = .ok (some (FieldOp.postAssign "Age" "" "age")))
    ∧ (argOp "" "v" ""
        (⟨"age", "int", "Age", TypeShape.Primitive "int",
          TypeShape.Primitive "int", true, false⟩ : InitArgData)
      = .ok (some (FieldOp.initAssign "Age" "" "age")))
    ∧ (fieldCode
        [⟨"age", "int", "Age", TypeShape.Primitive "int",
          TypeShape.Primitive "int", true, false⟩] "decoded" "v" "T" ""
      = .ok "v.Age = age") := by
  refine ⟨rfl, rfl, rfl⟩

/-- C7 (amended): for identical shapes with a pointer source and a
non-pointer field the planner emits a plain assignment with an empty
address-of marker — the source value is copied as is, not dereferenced. -/
theorem pointerSource_plainAssign (arg : InitArgData) (code targetVar targetPkg : String)
    (hf : arg.fieldName ≠ "")
    (heq : arg.type = arg.fieldType)
    (hp : arg.pointer = true)
    (hfp : arg.fieldPointer = false) :
    argOp code targetVar targetPkg arg =
      .ok (some (if code = "" then FieldOp.initAssign arg.fieldName "" arg.name
                 else FieldOp.postAssign arg.fieldName "" arg.name)) := by
  by_cases hc : code = "" <;> simp [argOp, hf, heq, hp, hfp, hc]

/-- Witness for the amended C7. -/
theorem pointerSource_plainAssign_witness :
    argOp "" "v" ""
        (⟨"age", "int", "Age", TypeShape.Primitive "int",
          TypeShape.Primitive "int", true, false⟩ : InitArgData)
      = .ok (some (FieldOp.initAssign "Age" "" "age")) := by
  have h := pointerSource_plainAssign
    (⟨"age", "int", "Age", TypeShape.Primitive "int",
      TypeShape.Primitive "int", true, false⟩ : InitArgData)
    "" "v" "" (by decide) rfl rfl rfl
  simpa using h

/-- C8 counterexample: with no bootstrap code, a first binding falling into
the alias-cast-via-temp case and a second binding falling into the
identical-shape case are emitted in the opposite order: the second
binding's literal entry (`Age: &age,`) appears in the output strictly
before the first binding's statements (`tmpstatus := ...`), as the explicit
append decomposition shows. -/
theorem emission_order_cex :
    (fieldCode
        [⟨"status", "string", "Status", TypeShape.Primitive "string",
          TypeShape.AliasOfPrimitive "StatusType" "string", false, true⟩,
         ⟨"age", "int", "Age", TypeShape.Primitive "int",
          TypeShape.Primitive "int", false, true⟩] "" "v" "T" ""
      = .ok "v := &T\x7b\nAge: &age,\n\x7d\ntmpstatus := StatusType(status)\nv.Status = &tmpstatus")
    ∧ (("v := &T\x7b\nAge: &age,\n\x7d\ntmpstatus := StatusType(status)\nv.Status = &tmpstatus" : String)
      = "v := &T\x7b\n" ++ opInit (FieldOp.initAssign "Age" "&" "age") ++ "\x7d\n"
        ++ trimNewlines (opPost "v" (FieldOp.castViaTemp "tmpstatus" "StatusType(status)" "Status"))) := by
  refine ⟨rfl, rfl⟩

/-- C8 (amended): operations are emitted in input binding order within each
of the two emission streams: when bootstrap code is supplied, the output is
exactly the concatenation of the per-binding post statements in binding
order; with no bootstrap code, the output is the composite literal holding
the per-binding initializer entries in binding order followed by the
per-binding post statements in binding order. -/
theorem emission_stream_order (args : List InitArgData)
    (code targetVar targetName targetPkg : String)
    (h : ∀ a ∈ args, argOk code targetVar targetPkg a = true) :
    (code = "" → fieldCode args code targetVar targetName targetPkg =
      .ok (trimNewlines (targetVar ++ " := &" ++ targetName ++ "\x7b\n"
            ++ catMap (argInitPart code targetVar targetPkg) args ++ "\x7d\n"
            ++ catMap (argPostPart code targetVar targetPkg) args)))
    ∧ (code ≠ "" → fieldCode args code targetVar targetName targetPkg =
      .ok (trimNewlines (catMap (argPostPart code targetVar targetPkg) args))) := by
  constructor
  · intro hc
    subst hc
    have hfold := fcFold_ok "" targetVar targetPkg args
      (targetVar ++ " := &" ++ targetName ++ "\x7b\n") "" h
    have hne : (targetVar ++ " := &" ++ targetName ++ "\x7b\n"
        ++ catMap (argInitPart "" targetVar targetPkg) args) ≠ "" := by
      rw [String.append_assoc, String.append_assoc, String.append_assoc]
      apply strAppend_ne_right
      apply strAppend_ne_right
      apply strAppend_ne_right
      apply strAppend_ne_left
      decide
    simp only [fieldCode, if_true, hfold]
    have hne2 : ¬ (targetVar ++ (" := &" ++ (targetName ++ ("\x7b\n"
        ++ catMap (argInitPart "" targetVar targetPkg) args))) = "") := by
      simpa [String.append_assoc] using hne
    simp [hne2, String.append_assoc]
  · intro hc
    have hfold := fcFold_ok code targetVar targetPkg args "" "" h
    simp only [fieldCode, if_neg hc, hfold]
    simp [hc]

/-- Witness for the amended C8: two identical-shape array bindings with
bootstrap code are emitted in order as two post statements. -/
theorem emission_stream_order_witness :
    fieldCode
        [⟨"tags", "[]int", "Tags", TypeShape.Arr (TypeShape.Primitive "int"),
          TypeShape.Arr (TypeShape.Primitive "int"), false, false⟩,
         ⟨"tags", "[]int", "Tags", TypeShape.Arr (TypeShape.Primitive "int"),
          TypeShape.Arr (TypeShape.Primitive "int"), false, false⟩] "decoded" "v" "T" ""
      = .ok "v.Tags = tags\nv.Tags = tags" := by
  have h := (emission_stream_order
    [⟨"tags", "[]int", "Tags", TypeShape.Arr (TypeShape.Primitive "int"),
      TypeShape.Arr (TypeShape.Primitive "int"), false, false⟩,
     ⟨"tags", "[]int", "Tags", TypeShape.Arr (TypeShape.Primitive "int"),
      TypeShape.Arr (TypeShape.Primitive "int"), false, false⟩]
    "decoded" "v" "T" "" (by decide)).2 (by decide)
  exact h.trans (by rfl)

/-! ## Theorems about the declaration loops of `serverType` -/

theorem countSec_append (p : Section → Bool) :
    ∀ l1 l2 : List Section, countSec p (l1 ++ l2) = countSec p l1 + countSec p l2 := by
  intro l1 l2
  induction l1 with
  | nil => simp [countSec]
  | cons s r ih => simp [countSec, ih, Nat.add_assoc]

theorem mset_cons_eq (a : String) (v : Bool) (r : List (String × Bool)) (n : String)
    (h : a = n) : mset ((a, v) :: r) n = (a, true) :: mset r n := by
  simp [mset, h]

theorem mset_cons_ne (a : String) (v : Bool) (r : List (String × Bool)) (n : String)
    (h : a ≠ n) : mset ((a, v) :: r) n = (a, v) :: mset r n := by
  simp [mset, h]

theorem mlookup_mset_self (m : List (String × Bool)) (n : String) (b : Bool)
    (h : mlookup m n = some b) : mlookup (mset m n) n = some true := by
  induction m with
  | nil => simp [mlookup] at h
  | cons p r ih =>
    obtain ⟨a, v⟩ := p
    by_cases hp : a = n
    · rw [mset_cons_eq a v r n hp]
      simp [mlookup, hp]
    · rw [mset_cons_ne a v r n hp]
      simp [mlookup, hp] at h ⊢
      exact ih h

theorem mlookup_mset_ne (m : List (String × Bool)) (k n : String) (h : k ≠ n) :
    mlookup (mset m k) n = mlookup m n := by
  induction m with
  | nil => simp [mset]
  | cons p r ih =>
    obtain ⟨a, v⟩ := p
    by_cases hp : a = k
    · rw [mset_cons_eq a v r k hp]
      subst hp
      simp [mlookup, h, ih]
    · rw [mset_cons_ne a v r k hp]
      by_cases hn : a = n <;> simp [mlookup, hn, ih]

/-- Once a name is marked generated, the response loop never emits another
declaration for it and the mark survives. -/
theorem respLoop_true (n : String) :
    ∀ (tds : List TypeData) (st : RespAcc), mlookup st.names n = some true →
      countSec (isRespDecl n) (respLoop tds st).sections = countSec (isRespDecl n) st.sections
      ∧ mlookup (respLoop tds st).names n = some true := by
  intro tds
  induction tds with
  | nil => intro st h; exact ⟨rfl, h⟩
  | cons t r ih =>
    intro st h
    rw [respLoop, List.foldl_cons]
    have key : countSec (isRespDecl n) (respStep st t).sections = countSec (isRespDecl n) st.sections
        ∧ mlookup (respStep st t).names n = some true := by
      by_cases htn : t.Name = n
      · have : mlookup st.names t.Name = some true := by rw [htn]; exact h
        simp [respStep, this]
        exact h
      · cases hl : mlookup st.names t.Name with
        | none => simp [respStep, hl]; exact h
        | some b =>
          cases b with
          | false =>
            constructor
            · simp [respStep, hl, countSec_append]
              by_cases hd : t.Def = "" <;>
                simp [hd, countSec, isRespDecl, htn]
            · simp [respStep, hl, mlookup_mset_ne _ _ _ htn]
              exact h
          | true => simp [respStep, hl]; exact h
    have hr := ih (respStep st t) key.2
    rw [respLoop] at hr
    exact ⟨hr.1.trans key.1, hr.2⟩

/-- A run of response body types none of which carries the given name
neither emits a declaration for it nor changes its registry entry. -/
theorem respLoop_other (n : String) :
    ∀ (tds : List TypeData) (st : RespAcc), (∀ p ∈ tds, p.Name ≠ n) →
      countSec (isRespDecl n) (respLoop tds st).sections = countSec (isRespDecl n) st.sections
      ∧ mlookup (respLoop tds st).names n = mlookup st.names n := by
  intro tds
  induction tds with
  | nil => intro st _; exact ⟨rfl, rfl⟩
  | cons t r ih =>
    intro st h
    have htn : t.Name ≠ n := h t (by simp)
    rw [respLoop, List.foldl_cons]
    have key : countSec (isRespDecl n) (respStep st t).sections = countSec (isRespDecl n) st.sections
        ∧ mlookup (respStep st t).names n = mlookup st.names n := by
      cases hl : mlookup st.names t.Name with
      | none => simp [respStep, hl]
      | some b =>
        cases b with
        | false =>
          constructor
          · simp [respStep, hl, countSec_append]
            by_cases hd : t.Def = "" <;>
              simp [hd, countSec, isRespDecl, htn]
          · simp [respStep, hl, mlookup_mset_ne _ _ _ htn]
        | true => simp [respStep, hl]
    have hr := ih (respStep st t) (fun p hp => h p (by simp [hp]))
    rw [respLoop] at hr
    exact ⟨hr.1.trans key.1, hr.2.trans key.2⟩

/-- C5: in the response-body loop, with a type name registered and not yet
generated, the first response body type carrying that name (and a
non-empty definition) emits exactly one declaration section over the whole
run — every later reference to the name contributes zero declaration
sections — and the name ends marked already generated. -/
theorem responseBody_dedup (pre : List TypeData) (t : TypeData) (suf : List TypeData)
    (names0 : List (String × Bool)) (n : String)
    (h0 : mlookup names0 n = some false)
    (hpre : ∀ p ∈ pre, p.Name ≠ n)
    (ht : t.Name = n) (hd : t.Def ≠ "") :
    countSec (isRespDecl n) (respLoop (pre ++ t :: suf) (RespAcc.mk [] names0 [] [])).sections = 1
    ∧ mlookup (respLoop (pre ++ t :: suf) (RespAcc.mk [] names0 [] [])).names n = some true := by
  have hsplit : respLoop (pre ++ t :: suf) (RespAcc.mk [] names0 [] [])
      = respLoop suf (respStep (respLoop pre (RespAcc.mk [] names0 [] [])) t) := by
    simp [respLoop, List.foldl_append]
  have hpre2 := respLoop_other n pre (RespAcc.mk [] names0 [] []) hpre
  have hlfn : mlookup (respLoop pre (RespAcc.mk [] names0 [] [])).names n = some false := by
    rw [hpre2.2]; exact h0
  have hlfT : mlookup (respLoop pre (RespAcc.mk [] names0 [] [])).names t.Name = some false := by
    rw [ht]; exact hlfn
  have hstep1 : countSec (isRespDecl n) (respStep (respLoop pre (RespAcc.mk [] names0 [] [])) t).sections = 1 := by
    simp [respStep, hlfT, hlfn, ht, countSec_append, hpre2.1, countSec, hd, isRespDecl]
  have hstep2 : mlookup (respStep (respLoop pre (RespAcc.mk [] names0 [] [])) t).names n = some true := by
    simp [respStep, hlfT, hlfn, ht]
    exact mlookup_mset_self _ n false hlfn
  have hfin := respLoop_true n suf (respStep (respLoop pre (RespAcc.mk [] names0 [] [])) t) hstep2
  rw [hsplit]
  exact ⟨hfin.1.trans hstep1, hfin.2⟩

/-- Witness for C5: scenario 5 of the spec — `UserResponseBody` registered
unfinished, declared by endpoint A, referenced again by endpoint B:
exactly one declaration section and the registry ends marked generated. -/
theorem responseBody_dedup_witness :
    countSec (isRespDecl "UserResponseBody")
      (respLoop [(⟨"UserResponseBody", "struct \x7b Name *string \x7d", "", none⟩ : TypeData),
                 (⟨"UserResponseBody", "struct \x7b Name *string \x7d", "", none⟩ : TypeData)]
        (RespAcc.mk [] [("UserResponseBody", false)] [] [])).sections = 1
    ∧ mlookup
        (respLoop [(⟨"UserResponseBody", "struct \x7b Name *string \x7d", "", none⟩ : TypeData),
                   (⟨"UserResponseBody", "struct \x7b Name *string \x7d", "", none⟩ : TypeData)]
          (RespAcc.mk [] [("UserResponseBody", false)] [] [])).names "UserResponseBody" = some true := by
  have h := responseBody_dedup []
    (⟨"UserResponseBody", "struct \x7b Name *string \x7d", "", none⟩ : TypeData)
    [(⟨"UserResponseBody", "struct \x7b Name *string \x7d", "", none⟩ : TypeData)]
    [("UserResponseBody", false)] "UserResponseBody"
    (by decide) (by decide) (by decide) (by decide)
  simpa using h

theorem reqBodyStep_count (n : String) (acc : List Section × List TypeData)
    (d : Option TypeData) :
    countSec (isReqDecl n) (reqBodyStep acc d).1
      = countSec (isReqDecl n) acc.1 + optReqCount n d := by
  cases d with
  | none => simp [reqBodyStep, optReqCount]
  | some d =>
    by_cases hd : d.Def = ""
    · simp [reqBodyStep, optReqCount, hd]
    · by_cases hn : d.Name = n <;>
        simp [reqBodyStep, optReqCount, hd, hn, countSec_append, countSec, isReqDecl]

theorem reqLoop_count (n : String) :
    ∀ (eps : List EndpointData) (acc : List Section × List TypeData),
      countSec (isReqDecl n) (eps.foldl reqStep acc).1
        = countSec (isReqDecl n) acc.1 + (eps.map (epReqCount n)).sum := by
  intro eps
  induction eps with
  | nil => intro acc; simp [countSec]
  | cons e r ih =>
    intro acc
    rw [List.foldl_cons, ih]
    simp [reqStep, reqBodyStep_count, epReqCount, Nat.add_assoc]

/-- C6: request-body type declarations are never deduplicated: the number
of request-body declaration sections carrying a given name equals the sum
over all endpoints of their request (and streaming) bodies carrying that
name with a non-empty definition — every such body is emitted, even when
it is identical to, or shares its name with, another endpoint's body. -/
theorem requestBody_no_dedup (eps : List EndpointData) (n : String) :
    countSec (isReqDecl n) (requestBodyBlock eps).1 = (eps.map (epReqCount n)).sum := by
  have h := reqLoop_count n eps ([], [])
  simpa [requestBodyBlock, countSec] using h

theorem errLoop_count (n : String) :
    ∀ (tds : List TypeData) (acc : List Section × List InitData × List TypeData),
      countSec (isErrDecl n) (tds.foldl errStep acc).1
        = countSec (isErrDecl n) acc.1 + (tds.map (tdCount n)).sum := by
  intro tds
  induction tds with
  | nil => intro acc; simp [countSec]
  | cons t r ih =>
    intro acc
    rw [List.foldl_cons, ih]
    have : countSec (isErrDecl n) (errStep acc t).1
        = countSec (isErrDecl n) acc.1 + tdCount n t := by
      by_cases hd : t.Def = ""
      · simp [errStep, tdCount, hd]
      · by_cases hn : t.Name = n <;>
          simp [errStep, tdCount, hd, hn, countSec_append, countSec, isErrDecl]
    rw [this]
    simp [Nat.add_assoc]

theorem attrLoop_count (n : String) :
    ∀ (tds : List TypeData) (acc : List Section × List TypeData),
      countSec (isAttrDecl n) (tds.foldl attrStep acc).1
        = countSec (isAttrDecl n) acc.1 + (tds.map (tdCount n)).sum := by
  intro tds
  induction tds with
  | nil => intro acc; simp [countSec]
  | cons t r ih =>
    intro acc
    rw [List.foldl_cons, ih]
    have : countSec (isAttrDecl n) (attrStep acc t).1
        = countSec (isAttrDecl n) acc.1 + tdCount n t := by
      by_cases hd : t.Def = ""
      · simp [attrStep, tdCount, hd]
      · by_cases hn : t.Name = n <;>
          simp [attrStep, tdCount, hd, hn, countSec_append, countSec, isAttrDecl]
    rw [this]
    simp [Nat.add_assoc]

/-- C9 counterexample: the error-body loop consults no registry — a service
whose two endpoints reference the same error body type `ErrBody` gets two
`error-body-type-decl` sections for that one name from `serverType`. -/
theorem errorBody_duplicate_cex :
    countSec (isErrDecl "ErrBody")
      (serverType []
        [(⟨none, none, [], [[⟨"ErrBody", "struct \x7b Msg *string \x7d", "", none⟩]], none, none⟩ : EndpointData),
         (⟨none, none, [], [[⟨"ErrBody", "struct \x7b Msg *string \x7d", "", none⟩]], none, none⟩ : EndpointData)]
        [] []).1 = 2 := by
  rfl

/-- C9 (amended): the error-body and body-attribute loops emit without
consulting the deduplication registry: every occurrence with a non-empty
definition produces its own declaration section, so the number of sections
for a name equals the number of occurrences of that name, not at most
one. -/
theorem errorAttr_emit_all :
    (∀ (tds : List TypeData) (n : String),
      countSec (isErrDecl n) (errorBodyBlock tds).1 = (tds.map (tdCount n)).sum)
    ∧ (∀ (tds : List TypeData) (n : String),
      countSec (isAttrDecl n) (attrBlock tds).1 = (tds.map (tdCount n)).sum) := by
  constructor
  · intro tds n
    have h := errLoop_count n tds ([], [], [])
    simpa [errorBodyBlock, countSec] using h
  · intro tds n
    have h := attrLoop_count n tds ([], [])
    simpa [attrBlock, countSec] using h

/-! ## Theorems about the constructor template `serverTypeInitT` -/

/-- C10 counterexample: a constructor spec whose return shape wraps the
built value (`ReturnTypeAttribute = "Project"`) but carries no bootstrap
code produces a function that never embeds a primary value at the wrapper
field — the emitted text contains no `Project: v` (there is no `v` to
embed; the wrapper is allocated directly by the field-population
literal). -/
theorem wrapper_noBootstrap_cex :
    (serverTypeInit
        (⟨"desc", "NewCreateResponseBody", "*CreateResponseBody", "", "Project",
          "CreateResponseBody", "", true,
          [⟨"name2", "string", "Name", TypeShape.Primitive "string",
            TypeShape.Primitive "string", false, false⟩]⟩ : InitData)
      = .ok "// desc\nfunc NewCreateResponseBody(name2 string, ) *CreateResponseBody \x7b\nres := &CreateResponseBody\x7b\nName: name2,\n\x7d\nreturn res\n\x7d\n")
    ∧ (strContains
        "// desc\nfunc NewCreateResponseBody(name2 string, ) *CreateResponseBody \x7b\nres := &CreateResponseBody\x7b\nName: name2,\n\x7d\nreturn res\n\x7d\n"
        "Project: v" = false) := by
  refine ⟨rfl, rfl⟩

/-- C10 (amended): when the return shape wraps the built value AND
bootstrap code is supplied, the synthesized function allocates the wrapper
under the second conventional name `res`, embeds the primary value `v` at
the wrapper field, directs field population at `res`, and returns `res`;
with no bootstrap code, no embedding happens (the wrapper is allocated by
the field-population literal itself, as the counterexample shows). -/
theorem wrapper_withBootstrap (d : InitData)
    (hsc : d.ServerCode ≠ "") (hattr : d.ReturnTypeAttribute ≠ "")
    (hstruct : d.ReturnIsStruct = true)
    (hok : ∀ a ∈ d.ServerArgs, argOk d.ServerCode "res" d.ReturnTypePkg a = true) :
    serverTypeInit d = .ok (commentLine d.Description ++ "\n"
      ++ ("func " ++ d.Name ++ "("
          ++ catList (d.ServerArgs.map (fun a => a.name ++ " " ++ a.typeRef ++ ", "))
          ++ ") " ++ d.ReturnTypeRef ++ " \x7b\n")
      ++ (d.ServerCode ++ "\n"
          ++ ("res := &" ++ d.ReturnTypeName ++ "\x7b\n" ++ d.ReturnTypeAttribute ++ ": v,\n\x7d\n"))
      ++ (if trimNewlines (catMap (argPostPart d.ServerCode "res" d.ReturnTypePkg) d.ServerArgs) ≠ ""
          then trimNewlines (catMap (argPostPart d.ServerCode "res" d.ReturnTypePkg) d.ServerArgs) ++ "\n"
          else "")
      ++ "return res\n\x7d\n") := by
  have hfold := fcFold_ok d.ServerCode "res" d.ReturnTypePkg d.ServerArgs "" "" hok
  have hfc : fieldCode d.ServerArgs d.ServerCode "res" d.ReturnTypeName d.ReturnTypePkg
      = .ok (trimNewlines (catMap (argPostPart d.ServerCode "res" d.ReturnTypePkg) d.ServerArgs)) := by
    simp only [fieldCode, if_neg hsc, hfold]
    simp [hsc]
  simp [serverTypeInit, hattr, hsc, hstruct, hfc, String.append_assoc]

/-- Witness for the amended C10: a wrapped constructor spec with bootstrap
code embeds `v` at the wrapper field and populates `res`. -/
theorem wrapper_withBootstrap_witness :
    serverTypeInit
        (⟨"desc", "NewCreateResponseBody", "*CreateResponseBody", "v := decodeBody()", "Project",
          "CreateResponseBody", "", true,
          [⟨"name2", "string", "Name", TypeShape.Primitive "string",
            TypeShape.Primitive "string", false, false⟩]⟩ : InitData)
      = .ok "// desc\nfunc NewCreateResponseBody(name2 string, ) *CreateResponseBody \x7b\nv := decodeBody()\nres := &CreateResponseBody\x7b\nProject: v,\n\x7d\nres.Name = name2\nreturn res\n\x7d\n" := by
  have h := wrapper_withBootstrap
    (⟨"desc", "NewCreateResponseBody", "*CreateResponseBody", "v := decodeBody()", "Project",
      "CreateResponseBody", "", true,
      [⟨"name2", "string", "Name", TypeShape.Primitive "string",
        TypeShape.Primitive "string", false, false⟩]⟩ : InitData)
    (by decide) (by decide) rfl (by decide)
  exact h.trans (by rfl)

end Goa

